import Mathlib

/-!
Verification of the school-administration web application (`app.py`).

The relational store (six tables created in `init_db`) is embedded as lists of
rows; dates are proleptic-Gregorian ordinals (`Nat`, as produced by Python's
`date.toordinal`, ordinal 1 being a Monday); grade values are `Rat`.  Each
Flask request handler relevant to the claims is embedded as a pure function
from its inputs and the store to an `Except`-style result: `Except.error`
models an uncaught Python exception (the request fails, uncommitted writes are
discarded), `Except.ok` carries the committed store and the HTTP response.
-/

/-- Row of the `cursos` table (`id`, `nombre`, `año`). -/
structure Curso where
  id : Nat
  nombre : String
  anio : Nat
deriving DecidableEq, Repr

/-- Row of the `alumnos` table. -/
structure Alumno where
  id : Nat
  nombre : String
  apellido : String
  cursoId : Nat
deriving DecidableEq, Repr

/-- Row of the `usuarios` table. -/
structure Usuario where
  id : Nat
  usuario : String
  nombre : String
  apellido : String
  rol : String
  clave : String
deriving DecidableEq, Repr

/-- Row of the `docente_cursos` join table. -/
structure DocenteCurso where
  docenteId : Nat
  cursoId : Nat
deriving DecidableEq, Repr

/-- Row of the `notas` table. -/
structure Nota where
  alumnoId : Nat
  docenteId : Nat
  cursoId : Nat
  nota : Rat
  fecha : Nat
deriving DecidableEq, Repr

/-- Row of the `asistencia` table; `id` is the AUTOINCREMENT primary key. -/
structure AsistRow where
  id : Nat
  alumnoId : Nat
  docenteId : Nat
  cursoId : Nat
  fecha : Nat
  presente : Nat
deriving DecidableEq, Repr

/-- The six relations of the database plus the next AUTOINCREMENT value for
the `asistencia` table (the only table whose generated `id` the code uses). -/
structure Store where
  usuarios : List Usuario
  cursos : List Curso
  alumnos : List Alumno
  docenteCursos : List DocenteCurso
  notas : List Nota
  asistencia : List AsistRow
  asistSeq : Nat
deriving DecidableEq, Repr

/-- A session is absent, or carries `usuario_id` and `rol` as set at login. -/
abbrev Session : Type := Option (Nat × String)

/-- HTTP method of a request. -/
inductive Method where
  | get
  | post
deriving DecidableEq, Repr

/-- Responses produced by the embedded handlers. -/
inductive HResp where
  | redirect (loc : String)
  | text (msg : String)
  | notasForm (alumnos : List Alumno) (cursoId : Nat)
  | asisView (alumnos : List Alumno) (fechas : List (Nat × String))
      (matriz : List (Nat × List (Nat × Nat)))
      (semanaAnterior semanaSiguiente : Nat)
deriving DecidableEq, Repr

/-- Result of an export route: a plain-text message or a generated document. -/
inductive ExportRes (α : Type) where
  | msg (s : String)
  | doc (d : α)
deriving DecidableEq, Repr

/-- Python truthiness of `request.form.get(...)`: `None` and `""` are falsy. -/
def pyTruthy (v : Option String) : Bool :=
  match v with
  | some s => !s.isEmpty
  | none => false

/-- Value of a digit string, most significant first. -/
def natOfDigits (cs : List Char) : Nat :=
  cs.foldl (fun n c => 10 * n + (c.toNat - 48)) 0

/-- Model of Python's `float()` builtin on plain decimal literals (optional
sign, integer digits, optional fractional digits): `none` models the
`ValueError` raised on unparsable text.  Exotic accepted forms (exponents,
`inf`, `nan`, underscores) are outside the inputs this development uses. -/
def pyFloat (s : String) : Option Rat :=
  let t := ((s.toList.dropWhile (·.isWhitespace)).reverse.dropWhile
      (·.isWhitespace)).reverse
  let signed : Int × List Char :=
    match t with
    | '-' :: cs => (-1, cs)
    | '+' :: cs => (1, cs)
    | cs => (1, cs)
  let intPart := signed.2.takeWhile (·.isDigit)
  let rest := signed.2.dropWhile (·.isDigit)
  match rest with
  | [] =>
    if intPart.isEmpty then none
    else some (signed.1 * (natOfDigits intPart : Rat))
  | '.' :: frac =>
    if frac.all (·.isDigit) && !(intPart.isEmpty && frac.isEmpty) then
      some (signed.1 *
        ((natOfDigits intPart : Rat) + (natOfDigits frac : Rat) / (10 ^ frac.length)))
    else none
  | _ => none

/-- Students of a course: `SELECT * FROM alumnos WHERE curso_id=?`. -/
def alumnosDe (cursoId : Nat) (st : Store) : List Alumno :=
  st.alumnos.filter (fun a => a.cursoId == cursoId)

/-- Weekday of an ordinal date, `0` = Monday .. `6` = Sunday (ordinal 1,
0001-01-01, is a Monday in the proleptic Gregorian calendar, matching
Python's `date.weekday`). -/
def weekday (d : Nat) : Nat := (d + 6) % 7

/-- Resolution of the requested week start (`asistencia` lines 501-507 and
`exportar_asistencia` lines 646-651): a supplied date is used as-is, otherwise
`today - timedelta(days=today.weekday())`. -/
def resolveWeekStart (inicio : Option Nat) (today : Nat) : Nat :=
  match inicio with
  | some d => d
  | none => today - weekday today

/-- The five dates `inicio_semana + timedelta(days=i) for i in range(5)`. -/
def fechasSemana (inicio : Nat) : List Nat :=
  (List.range 5).map (fun i => inicio + i)

/-- The five weekday names indexed by `f.weekday()`. -/
def diasSemana : List String :=
  ["Lunes", "Martes", "Miércoles", "Jueves", "Viernes"]

/-- The comprehension `[(f, dias_semana[f.weekday()]) for f in fechas]`:
`none` models the `IndexError` raised when some `f.weekday()` is `5` or `6`
(the name list has five entries). -/
def fechasSemanaNombres : List Nat → Option (List (Nat × String))
  | [] => some []
  | f :: fs =>
    match diasSemana.get? (weekday f), fechasSemanaNombres fs with
    | some n, some rest => some ((f, n) :: rest)
    | _, _ => none

/-- The row filter of the attendance cell queries: `WHERE alumno_id=? AND
docente_id=? AND curso_id=? AND fecha=?`. -/
def matchAsist (alumnoId docenteId cursoId fecha : Nat) (r : AsistRow) : Bool :=
  r.alumnoId == alumnoId && r.docenteId == docenteId &&
  r.cursoId == cursoId && r.fecha == fecha

/-- Lookup `SELECT ... FROM asistencia WHERE alumno_id=? AND docente_id=? AND
curso_id=? AND fecha=?` (first matching row, as `fetchone`). -/
def findAsist (alumnoId docenteId cursoId fecha : Nat) (rows : List AsistRow) :
    Option AsistRow :=
  rows.find? (matchAsist alumnoId docenteId cursoId fecha)

/-- The row transformation of `UPDATE asistencia SET presente=? WHERE id=?`. -/
def setPresente (rid presente : Nat) (r2 : AsistRow) : AsistRow :=
  if r2.id == rid then { r2 with presente := presente } else r2

/-- One iteration of the attendance POST loop: read the existing row for the
cell, `UPDATE ... SET presente=? WHERE id=?` if present, otherwise `INSERT`. -/
def upsertAsist (docenteId cursoId alumnoId fecha : Nat) (mark : Bool)
    (st : Store) : Store :=
  match findAsist alumnoId docenteId cursoId fecha st.asistencia with
  | some r =>
    { st with
      asistencia := st.asistencia.map (setPresente r.id (if mark then 1 else 0)) }
  | none =>
    { st with
      asistencia := st.asistencia ++
        [⟨st.asistSeq, alumnoId, docenteId, cursoId, fecha, if mark then 1 else 0⟩],
      asistSeq := st.asistSeq + 1 }

/-- The cell key of an attendance row. -/
def asistKey (r : AsistRow) : Nat × Nat × Nat × Nat :=
  (r.alumnoId, r.docenteId, r.cursoId, r.fecha)

/-- Invariant of the `asistencia` table maintained by the application: ids
are below the AUTOINCREMENT counter and pairwise distinct, and (as the spec
states for the read-then-write reconciliation) at most one row exists per
(student, teacher, course, date) cell. -/
def AsistInv (st : Store) : Prop :=
  (∀ r ∈ st.asistencia, r.id < st.asistSeq) ∧
  (st.asistencia.map (fun r => r.id)).Nodup ∧
  (st.asistencia.map asistKey).Nodup

/-- The full POST loop of `asistencia`: for every student of the course and
every date of the week, upsert the submitted mark (a missing or empty form
value is recorded as `presente = 0`). -/
def recordWeek (docenteId cursoId : Nat) (fechas : List Nat)
    (form : Nat → Nat → Option String) (alumnos : List Alumno) (st : Store) :
    Store :=
  alumnos.foldl
    (fun st1 a =>
      fechas.foldl
        (fun st2 f => upsertAsist docenteId cursoId a.id f (pyTruthy (form a.id f)) st2)
        st1)
    st

/-- The GET-path cell read: `res[0] if res else 0`. -/
def loadCell (docenteId cursoId alumnoId fecha : Nat) (st : Store) : Nat :=
  match findAsist alumnoId docenteId cursoId fecha st.asistencia with
  | some r => r.presente
  | none => 0

/-- The presence matrix built by the GET path of `asistencia`. -/
def loadWeek (docenteId cursoId : Nat) (fechas : List Nat)
    (alumnos : List Alumno) (st : Store) : List (Nat × List (Nat × Nat)) :=
  alumnos.map (fun a =>
    (a.id, fechas.map (fun f => (f, loadCell docenteId cursoId a.id f st))))

/-- The `/asistencia/<curso_id>` handler (`app.py` lines 494-586). -/
def asistencia (sess : Session) (cursoId : Nat) (inicio : Option Nat)
    (today : Nat) (meth : Method) (form : Nat → Nat → Option String)
    (st : Store) : Except String (Store × HResp) :=
  match sess with
  | none => .ok (st, .redirect "/")
  | some (docenteId, rol) =>
    if rol == "docente" then
      let inicioSemana := resolveWeekStart inicio today
      let fechas := fechasSemana inicioSemana
      let alumnos := alumnosDe cursoId st
      match meth with
      | .post =>
        let st1 := recordWeek docenteId cursoId fechas form alumnos st
        .ok (st1, .redirect s!"/asistencia/{cursoId}?inicio={inicioSemana}")
      | .get =>
        let matriz := loadWeek docenteId cursoId fechas alumnos st
        match fechasSemanaNombres fechas with
        | none => .error "IndexError"
        | some nombres =>
          .ok (st, .asisView alumnos nombres matriz (inicioSemana - 7) (inicioSemana + 7))
    else .ok (st, .redirect "/")

/-- The POST loop of `notas` (lines 469-486): entries with falsy form text are
skipped, any remaining text is fed to `float(...)`; a parse failure raises
`ValueError`, aborting the request before `conn.commit()`. -/
def notasLoop (docenteId cursoId fecha : Nat) (form : Nat → Option String) :
    List Alumno → Except String (List Nota)
  | [] => .ok []
  | a :: rest =>
    match form a.id with
    | none => notasLoop docenteId cursoId fecha form rest
    | some s =>
      if s.isEmpty then notasLoop docenteId cursoId fecha form rest
      else
        match pyFloat s with
        | none => .error "ValueError"
        | some q =>
          (notasLoop docenteId cursoId fecha form rest).map
            (fun es => ⟨a.id, docenteId, cursoId, q, fecha⟩ :: es)

/-- The `/notas/<curso_id>` handler (lines 457-490). -/
def notas (sess : Session) (cursoId : Nat) (meth : Method)
    (form : Nat → Option String) (today : Nat) (st : Store) :
    Except String (Store × HResp) :=
  match sess with
  | none => .ok (st, .redirect "/")
  | some (docenteId, rol) =>
    if rol == "docente" then
      let alumnos := alumnosDe cursoId st
      match meth with
      | .post =>
        match notasLoop docenteId cursoId today form alumnos with
        | .error e => .error e
        | .ok entries =>
          .ok ({ st with notas := st.notas ++ entries },
               .text "Notas registradas correctamente")
      | .get => .ok (st, .notasForm alumnos cursoId)
    else .ok (st, .redirect "/")

/-- Students ordered by `ORDER BY apellido, nombre`. -/
def sortAlumnos (l : List Alumno) : List Alumno :=
  l.mergeSort (fun a b =>
    decide (a.apellido < b.apellido ∨ (a.apellido = b.apellido ∧ a.nombre ≤ b.nombre)))

/-- The rows the grade-export LEFT JOIN contributes for one student: one blank
row when the student has no `notas` rows, otherwise one row per `notas` row
(the join condition is `a.id = n.alumno_id` only). -/
def filasAlumno (st : Store) (a : Alumno) : List (String × Option Rat) :=
  match st.notas.filter (fun n => n.alumnoId == a.id) with
  | [] => [(s!"{a.apellido}, {a.nombre}", none)]
  | ns => ns.map (fun n => (s!"{a.apellido}, {a.nombre}", some n.nota))

/-- Result rows of the `exportar_notas` query (lines 605-621): students of the
course left-joined with their grade rows, ordered by last then first name. -/
def notasJoinRows (cursoId : Nat) (st : Store) : List (String × Option Rat) :=
  (sortAlumnos (alumnosDe cursoId st)).flatMap (filasAlumno st)

/-- The grade-export document: heading plus (student, grade-or-blank) rows. -/
structure NotasDoc where
  heading : String
  rows : List (String × Option Rat)
deriving DecidableEq, Repr

/-- The `/exportar_notas/<curso_id>` handler (lines 590-640).  There is no
session check; a missing course only changes the heading (`Curso
Desconocido`), the document is produced either way. -/
def exportarNotas (sess : Session) (cursoId : Nat) (st : Store) :
    ExportRes NotasDoc :=
  let heading :=
    match st.cursos.find? (fun c => c.id == cursoId) with
    | some c => s!"Notas del Curso: {c.nombre} - Año {c.anio}"
    | none => "Notas del Curso: Curso Desconocido"
  .doc { heading := heading, rows := notasJoinRows cursoId st }

/-- The attendance-export cell query (lines 705-721): no `docente_id` filter,
first matching row decides the symbol. -/
def exportCell (alumnoId cursoId fecha : Nat) (st : Store) : String :=
  match st.asistencia.find? (fun r =>
      r.alumnoId == alumnoId && r.cursoId == cursoId && r.fecha == fecha) with
  | none => "SR"
  | some r => if r.presente == 1 then "P" else "A"

/-- The attendance-export document. -/
structure AsisDoc where
  heading : String
  header : List String
  rows : List (String × List String)
deriving DecidableEq, Repr

/-- The `/exportar_asistencia/<curso_id>` handler (lines 644-732).  No session
check; the weekday-name list is built before the course lookup, so a
non-Monday start raises `IndexError` even for a missing course. -/
def exportarAsistencia (sess : Session) (cursoId : Nat) (inicio : Option Nat)
    (today : Nat) (st : Store) : Except String (ExportRes AsisDoc) :=
  let inicioSemana := resolveWeekStart inicio today
  let fechas := fechasSemana inicioSemana
  match fechasSemanaNombres fechas with
  | none => .error "IndexError"
  | some nombres =>
    match st.cursos.find? (fun c => c.id == cursoId) with
    | none => .ok (.msg "Curso no encontrado")
    | some curso =>
      let alumnos := sortAlumnos (alumnosDe cursoId st)
      .ok (.doc
        { heading := s!"Asistencia del Curso: {curso.nombre} - Año {curso.anio}"
          header := "Alumno" :: nombres.map (fun p => p.2)
          rows := alumnos.map (fun a =>
            (s!"{a.apellido}, {a.nombre}",
             fechas.map (fun f => exportCell a.id cursoId f st))) })

/-- The roster-export document: one paragraph per student. -/
structure AlumnosDoc where
  heading : String
  parrafos : List String
deriving DecidableEq, Repr

/-- The `/exportar_alumnos/<curso_id>` handler (lines 736-784); no session
check, plain "Curso no encontrado" when the course does not exist. -/
def exportarAlumnos (sess : Session) (cursoId : Nat) (st : Store) :
    ExportRes AlumnosDoc :=
  match st.cursos.find? (fun c => c.id == cursoId) with
  | none => .msg "Curso no encontrado"
  | some curso =>
    .doc
      { heading := s!"Alumnos del Curso: {curso.nombre} - Año {curso.anio}"
        parrafos := (sortAlumnos (alumnosDe cursoId st)).map (fun a =>
          s!"{a.apellido}, {a.nombre}") }

/-- The `/eliminar_curso/<curso_id>` handler (lines 788-802): deletes only
from `asistencia`, `alumnos` and `cursos`; `notas` and `docente_cursos` are
not touched.  No session check. -/
def eliminarCurso (sess : Session) (cursoId : Nat) (st : Store) :
    Store × HResp :=
  ({ st with
      asistencia := st.asistencia.filter (fun r => r.cursoId != cursoId),
      alumnos := st.alumnos.filter (fun a => a.cursoId != cursoId),
      cursos := st.cursos.filter (fun c => c.id != cursoId) },
   .redirect "/admin")

/-- The `/eliminar_docente/<docente_id>` handler (lines 806-818); no session
check. -/
def eliminarDocente (sess : Session) (docenteId : Nat) (st : Store) :
    Store × HResp :=
  ({ st with
      docenteCursos := st.docenteCursos.filter (fun dc => dc.docenteId != docenteId),
      usuarios := st.usuarios.filter (fun u => !(u.id == docenteId && u.rol == "docente")) },
   .redirect "/admin")

/-- The `/eliminar_alumno/<alumno_id>` handler (lines 822-834); no session
check. -/
def eliminarAlumno (sess : Session) (alumnoId : Nat) (st : Store) :
    Store × HResp :=
  ({ st with
      asistencia := st.asistencia.filter (fun r => r.alumnoId != alumnoId),
      alumnos := st.alumnos.filter (fun a => a.id != alumnoId) },
   .redirect "/admin")

/-- Example store: completely empty database. -/
def stEmpty : Store := ⟨[], [], [], [], [], [], 0⟩

/-- Example store: course 1 with students Jane Doe and Al Smith. -/
def stC1 : Store :=
  ⟨[], [⟨1, "Mat", 2024⟩],
   [⟨1, "Jane", "Doe", 1⟩, ⟨2, "Al", "Smith", 1⟩], [], [], [], 0⟩

/-- Example store: course 1 with one student, one teacher assignment, one
grade row and one attendance row, all referencing course 1. -/
def stC2 : Store :=
  ⟨[⟨5, "doc", "Dora", "Diaz", "docente", "x"⟩], [⟨1, "Mat", 2024⟩],
   [⟨1, "Jane", "Doe", 1⟩], [⟨5, 1⟩],
   [⟨1, 5, 1, 7, 700000⟩], [⟨0, 1, 5, 1, 700000, 1⟩], 1⟩

/-- Example store: two attendance rows for the same (student, course, date)
cell, written by two different teachers, with opposite presence flags. -/
def stC5 : Store :=
  ⟨[], [⟨1, "Mat", 2024⟩], [⟨1, "Jane", "Doe", 1⟩], [],
   [], [⟨0, 1, 1, 1, 10, 0⟩, ⟨1, 1, 2, 1, 10, 1⟩], 2⟩

/-- Example store: one student of course 1 holding two grade rows. -/
def stC7 : Store :=
  ⟨[], [⟨1, "Mat", 2024⟩], [⟨1, "Jane", "Doe", 1⟩], [],
   [⟨1, 5, 1, 7, 100⟩, ⟨1, 5, 1, 8, 101⟩], [], 0⟩

/-- Example store: course 1 with one student and no attendance yet. -/
def stC4 : Store :=
  ⟨[], [⟨1, "Mat", 2024⟩], [⟨1, "Ana", "Paz", 1⟩], [], [], [], 0⟩

deriving instance DecidableEq for Except

/-- Supporting lemma: the five week dates, written out. -/
theorem fechasSemana_eq (inicio : Nat) :
    fechasSemana inicio =
      [inicio, inicio + 1, inicio + 2, inicio + 3, inicio + 4] := by
  simp [fechasSemana, List.range_succ]

/-- Supporting lemma: weekday of a shifted date. -/
theorem weekday_add (d i : Nat) : weekday (d + i) = (weekday d + i) % 7 := by
  simp only [weekday]
  omega

/-- Supporting lemma: full effect of `eliminar_curso` on the store. -/
theorem eliminarCurso_spec (sess : Session) (cursoId : Nat) (st : Store) :
    (∀ c ∈ ((eliminarCurso sess cursoId st).1).cursos, c.id ≠ cursoId) ∧
    (∀ a ∈ ((eliminarCurso sess cursoId st).1).alumnos, a.cursoId ≠ cursoId) ∧
    (∀ r ∈ ((eliminarCurso sess cursoId st).1).asistencia, r.cursoId ≠ cursoId) ∧
    ((eliminarCurso sess cursoId st).1).notas = st.notas ∧
    ((eliminarCurso sess cursoId st).1).docenteCursos = st.docenteCursos ∧
    ((eliminarCurso sess cursoId st).1).usuarios = st.usuarios ∧
    (eliminarCurso sess cursoId st).2 = HResp.redirect "/admin" := by
  simp [eliminarCurso, List.mem_filter]

/-- C2 counterexample: after deleting course 1 from `stC2`, a grade row and a
teacher-assignment row still reference course 1 — the deletion does not
cascade to `notas` or `docente_cursos`. -/
theorem c2_counterexample :
    (∃ n ∈ ((eliminarCurso none 1 stC2).1).notas, n.cursoId = 1) ∧
    (∃ dc ∈ ((eliminarCurso none 1 stC2).1).docenteCursos, dc.cursoId = 1) := by
  decide

/-- C2 (amended): deleting a course removes the course row, its students and
its attendance rows, and nothing else: grade rows and teacher-course
assignment rows referencing the course survive unchanged, and the handler
redirects to the admin page. -/
theorem c2_amended (sess : Session) (cursoId : Nat) (st : Store) :
    (∀ c ∈ ((eliminarCurso sess cursoId st).1).cursos, c.id ≠ cursoId) ∧
    (∀ a ∈ ((eliminarCurso sess cursoId st).1).alumnos, a.cursoId ≠ cursoId) ∧
    (∀ r ∈ ((eliminarCurso sess cursoId st).1).asistencia, r.cursoId ≠ cursoId) ∧
    ((eliminarCurso sess cursoId st).1).notas = st.notas ∧
    ((eliminarCurso sess cursoId st).1).docenteCursos = st.docenteCursos ∧
    ((eliminarCurso sess cursoId st).1).usuarios = st.usuarios ∧
    (eliminarCurso sess cursoId st).2 = HResp.redirect "/admin" :=
  eliminarCurso_spec sess cursoId st

/-- C6 counterexample: date ordinal 2 (a Tuesday) supplied as week start is
used as-is, so the first of the five derived dates is not a Monday. -/
theorem c6_counterexample :
    (fechasSemana (resolveWeekStart (some 2) 100)).headD 0 = 2 ∧
    weekday 2 ≠ 0 := by
  decide

/-- C6 (amended): the resolved week is five consecutive dates; a supplied
start date is used as-is (so the first element is a Monday only if the caller
passes a Monday); with no supplied date the start is the Monday of the
current week, `today - weekday(today)`, and the fifth date is that Friday. -/
theorem c6_amended (inicio : Option Nat) (today : Nat) (h : 1 ≤ today) :
    fechasSemana (resolveWeekStart inicio today) =
      [resolveWeekStart inicio today, resolveWeekStart inicio today + 1,
       resolveWeekStart inicio today + 2, resolveWeekStart inicio today + 3,
       resolveWeekStart inicio today + 4] ∧
    (∀ d, inicio = some d → resolveWeekStart inicio today = d) ∧
    (inicio = none → weekday (resolveWeekStart inicio today) = 0 ∧
      weekday (resolveWeekStart inicio today + 4) = 4) := by
  refine ⟨fechasSemana_eq _, ?_, ?_⟩
  · intro d hd
    subst hd
    rfl
  · intro h0
    subst h0
    simp only [resolveWeekStart, weekday]
    omega

/-- C6 witness: with no supplied start and today = ordinal 10 (a Wednesday),
the resolved start is a Monday and the fifth date a Friday. -/
theorem c6_witness :
    weekday (resolveWeekStart none 10) = 0 ∧
    weekday (resolveWeekStart none 10 + 4) = 4 :=
  (c6_amended none 10 (by norm_num)).2.2 rfl

/-- C9: the deletion and export handlers consult the session nowhere — any
two sessions (including no session at all) produce identical results — and
with no session established the course deletion still removes the course. -/
theorem c9_no_session_checks :
    (∀ (s1 s2 : Session) (cid : Nat) (st : Store),
      eliminarCurso s1 cid st = eliminarCurso s2 cid st) ∧
    (∀ (s1 s2 : Session) (did : Nat) (st : Store),
      eliminarDocente s1 did st = eliminarDocente s2 did st) ∧
    (∀ (s1 s2 : Session) (aid : Nat) (st : Store),
      eliminarAlumno s1 aid st = eliminarAlumno s2 aid st) ∧
    (∀ (s1 s2 : Session) (cid : Nat) (st : Store),
      exportarNotas s1 cid st = exportarNotas s2 cid st) ∧
    (∀ (s1 s2 : Session) (cid : Nat) (i : Option Nat) (t : Nat) (st : Store),
      exportarAsistencia s1 cid i t st = exportarAsistencia s2 cid i t st) ∧
    (∀ (s1 s2 : Session) (cid : Nat) (st : Store),
      exportarAlumnos s1 cid st = exportarAlumnos s2 cid st) ∧
    (∀ (cid : Nat) (st : Store),
      (∀ c ∈ ((eliminarCurso none cid st).1).cursos, c.id ≠ cid) ∧
      (eliminarCurso none cid st).2 = HResp.redirect "/admin") := by
  refine ⟨fun _ _ _ _ => rfl, fun _ _ _ _ => rfl, fun _ _ _ _ => rfl,
    fun _ _ _ _ => rfl, fun _ _ _ _ _ _ => rfl, fun _ _ _ _ => rfl, ?_⟩
  intro cid st
  exact ⟨(eliminarCurso_spec none cid st).1,
    (eliminarCurso_spec none cid st).2.2.2.2.2.2⟩

/-- Supporting lemma: indexing the five-name list out of range. -/
theorem diasSemana_get?_none {k : Nat} (hk : 5 ≤ k) : diasSemana.get? k = none := by
  apply List.get?_eq_none.mpr
  simpa [diasSemana] using hk

/-- Supporting lemma: one out-of-range weekday poisons the whole name list. -/
theorem fsn_mem_none {fs : List Nat} {f : Nat} (hf : f ∈ fs)
    (h : diasSemana.get? (weekday f) = none) : fechasSemanaNombres fs = none := by
  rw [List.get?_eq_getElem?] at h
  induction fs with
  | nil => cases hf
  | cons b t ih =>
    rcases List.mem_cons.mp hf with rfl | hmem
    · cases h2 : fechasSemanaNombres t <;> simp [fechasSemanaNombres, h, h2]
    · have h3 := ih hmem
      cases h2 : diasSemana.get? (weekday b) <;> simp [fechasSemanaNombres, h2, h3]

/-- Supporting lemma: a non-Monday week start puts a Saturday or Sunday among
the five derived dates. -/
theorem exists_bad_weekday {inicio : Nat} (h : weekday inicio ≠ 0) :
    ∃ f ∈ fechasSemana inicio, 5 ≤ weekday f := by
  have hw : weekday inicio < 7 := Nat.mod_lt _ (by norm_num)
  by_cases h5 : weekday inicio ≤ 5
  · refine ⟨inicio + (5 - weekday inicio), ?_, ?_⟩
    · simp only [fechasSemana, List.mem_map, List.mem_range]
      exact ⟨5 - weekday inicio, by omega, rfl⟩
    · rw [weekday_add]
      omega
  · refine ⟨inicio + 0, ?_, ?_⟩
    · simp only [fechasSemana, List.mem_map, List.mem_range]
      exact ⟨0, by omega, rfl⟩
    · rw [weekday_add]
      omega

/-- Supporting lemma: the weekday-name computation fails for a non-Monday
week start. -/
theorem fsn_not_monday {inicio : Nat} (h : weekday inicio ≠ 0) :
    fechasSemanaNombres (fechasSemana inicio) = none := by
  obtain ⟨f, hf, hbad⟩ := exists_bad_weekday h
  exact fsn_mem_none hf (diasSemana_get?_none hbad)

/-- Supporting lemma: the weekday-name computation for a Monday start. -/
theorem fsn_monday {inicio : Nat} (h : weekday inicio = 0) :
    fechasSemanaNombres (fechasSemana inicio) =
      some [(inicio, "Lunes"), (inicio + 1, "Martes"), (inicio + 2, "Miércoles"),
            (inicio + 3, "Jueves"), (inicio + 4, "Viernes")] := by
  have h1 : weekday (inicio + 1) = 1 := by rw [weekday_add, h]
  have h2 : weekday (inicio + 2) = 2 := by rw [weekday_add, h]
  have h3 : weekday (inicio + 3) = 3 := by rw [weekday_add, h]
  have h4 : weekday (inicio + 4) = 4 := by rw [weekday_add, h]
  rw [fechasSemana_eq]
  simp [fechasSemanaNombres, diasSemana, h, h1, h2, h3, h4]

/-- C10: if the supplied week start is not a Monday, one of the five derived
dates falls on weekday 5 or 6, the five-element day-name lookup is out of
bounds, and both the attendance view (GET) and the attendance export fail
with an indexing error instead of producing a view or document. -/
theorem c10_nonmonday_indexerror (docenteId cid inicio today : Nat)
    (sess : Session) (form : Nat → Nat → Option String) (st : Store)
    (h : weekday inicio ≠ 0) :
    (∃ f ∈ fechasSemana inicio, 5 ≤ weekday f) ∧
    asistencia (some (docenteId, "docente")) cid (some inicio) today
      Method.get form st = Except.error "IndexError" ∧
    exportarAsistencia sess cid (some inicio) today st =
      Except.error "IndexError" := by
  refine ⟨exists_bad_weekday h, ?_, ?_⟩
  · simp [asistencia, resolveWeekStart, fsn_not_monday h]
  · simp [exportarAsistencia, resolveWeekStart, fsn_not_monday h]

/-- C10 witness: week start ordinal 2 is a Tuesday; attendance view and
export both fail with the indexing error. -/
theorem c10_witness :
    asistencia (some (7, "docente")) 1 (some 2) 100 Method.get
      (fun _ _ => none) stC1 = Except.error "IndexError" ∧
    exportarAsistencia none 1 (some 2) 100 stC1 = Except.error "IndexError" :=
  ⟨(c10_nonmonday_indexerror 7 1 2 100 none (fun _ _ => none) stC1 (by decide)).2.1,
   (c10_nonmonday_indexerror 7 1 2 100 none (fun _ _ => none) stC1 (by decide)).2.2⟩

/-- C8: with a session whose role is not "docente" (or no session at all),
the grade handler and the attendance handler, for both methods, leave the
store unchanged and return a redirect to the login entry point, never an
error. -/
theorem c8_role_guard (sess : Session) (cid : Nat) (meth : Method)
    (form1 : Nat → Option String) (form2 : Nat → Nat → Option String)
    (inicio : Option Nat) (today : Nat) (st : Store)
    (h : ∀ d, sess ≠ some (d, "docente")) :
    notas sess cid meth form1 today st = Except.ok (st, HResp.redirect "/") ∧
    asistencia sess cid inicio today meth form2 st =
      Except.ok (st, HResp.redirect "/") := by
  match sess with
  | none => exact ⟨rfl, rfl⟩
  | some (d, r) =>
    have hr : r ≠ "docente" := by
      intro heq
      exact h d (by rw [heq])
    have hr2 : (r == "docente") = false := by
      simpa using hr
    constructor
    · simp [notas, hr2]
    · simp [asistencia, hr2]

/-- C8 witness: an admin session is redirected to login by both handlers,
with the store untouched. -/
theorem c8_witness :
    notas (some (7, "admin")) 1 Method.post (fun _ => some "9") 5 stC1 =
      Except.ok (stC1, HResp.redirect "/") ∧
    asistencia (some (7, "admin")) 1 none 5 Method.post (fun _ _ => some "on")
      stC1 = Except.ok (stC1, HResp.redirect "/") :=
  c8_role_guard (some (7, "admin")) 1 Method.post (fun _ => some "9")
    (fun _ _ => some "on") none 5 stC1 (by intro d hd; simp at hd)

/-- C3 counterexample: course 1 does not exist in the empty store, yet the
grade export still produces a generated document (headed "Curso
Desconocido") instead of a "course not found" result. -/
theorem c3_counterexample :
    (stEmpty.cursos.find? (fun c => c.id == 1) = none) ∧
    exportarNotas none 1 stEmpty =
      ExportRes.doc ⟨"Notas del Curso: Curso Desconocido", []⟩ := by
  constructor
  · rfl
  · simp [exportarNotas, notasJoinRows, alumnosDe, sortAlumnos, stEmpty]

/-- C3 (amended): for the roster and attendance exports a non-resolving
course id yields the plain "Curso no encontrado" result and no document (for
the attendance export provided the resolved week start is a Monday, since the
day-name computation precedes the course lookup); the grade export instead
always produces a document, headed "Curso Desconocido" when the course does
not resolve. -/
theorem c3_amended (sess : Session) (cid : Nat) (inicio : Option Nat)
    (today : Nat) (st : Store)
    (h : st.cursos.find? (fun c => c.id == cid) = none)
    (hmon : weekday (resolveWeekStart inicio today) = 0) :
    exportarAlumnos sess cid st = ExportRes.msg "Curso no encontrado" ∧
    exportarAsistencia sess cid inicio today st =
      Except.ok (ExportRes.msg "Curso no encontrado") ∧
    exportarNotas sess cid st =
      ExportRes.doc ⟨"Notas del Curso: Curso Desconocido", notasJoinRows cid st⟩ := by
  refine ⟨?_, ?_, ?_⟩
  · simp [exportarAlumnos, h]
  · simp [exportarAsistencia, fsn_monday hmon, h]
  · simp [exportarNotas, h]

/-- C3 witness: empty store, course 1, Monday start (ordinal 1). -/
theorem c3_witness :
    exportarAlumnos none 1 stEmpty = ExportRes.msg "Curso no encontrado" ∧
    exportarAsistencia none 1 (some 1) 100 stEmpty =
      Except.ok (ExportRes.msg "Curso no encontrado") ∧
    exportarNotas none 1 stEmpty =
      ExportRes.doc ⟨"Notas del Curso: Curso Desconocido", notasJoinRows 1 stEmpty⟩ :=
  c3_amended none 1 (some 1) 100 stEmpty rfl (by decide)

/-- Entries the grade POST records when every submitted text parses: one
entry per student whose form text is truthy. -/
def notasParsedEntries (docenteId cursoId fecha : Nat) (form : Nat → Option String)
    (alumnos : List Alumno) : List Nota :=
  alumnos.filterMap (fun a =>
    match form a.id with
    | none => none
    | some s =>
      if s.isEmpty then none
      else (pyFloat s).map (fun q => ⟨a.id, docenteId, cursoId, q, fecha⟩))

/-- Supporting lemma: one unparsable truthy entry aborts the grade loop. -/
theorem notasLoop_error (docenteId cursoId fecha : Nat) (form : Nat → Option String)
    (alumnos : List Alumno)
    (h : ∃ a ∈ alumnos, ∃ s, form a.id = some s ∧ s.isEmpty = false ∧ pyFloat s = none) :
    notasLoop docenteId cursoId fecha form alumnos = Except.error "ValueError" := by
  induction alumnos with
  | nil =>
    obtain ⟨a, ha, -⟩ := h
    cases ha
  | cons a0 rest ih =>
    obtain ⟨a, ha, s, hs, hne, hpf⟩ := h
    rcases List.mem_cons.mp ha with rfl | hmem
    · simp [notasLoop, hs, hne, hpf]
    · cases hf : form a0.id with
      | none =>
        simp only [notasLoop, hf]
        exact ih ⟨a, hmem, s, hs, hne, hpf⟩
      | some s0 =>
        by_cases he : s0.isEmpty
        · simp only [notasLoop, hf, he, if_pos]
          exact ih ⟨a, hmem, s, hs, hne, hpf⟩
        · cases hp : pyFloat s0 with
          | none => simp [notasLoop, hf, he, hp]
          | some q =>
            simp [notasLoop, hf, he, hp, ih ⟨a, hmem, s, hs, hne, hpf⟩, Except.map]

/-- Supporting lemma: when every truthy text parses, the grade loop succeeds
and returns exactly the parsed entries. -/
theorem notasLoop_ok (docenteId cursoId fecha : Nat) (form : Nat → Option String)
    (alumnos : List Alumno)
    (h : ∀ a ∈ alumnos, ∀ s, form a.id = some s → s.isEmpty = false → (pyFloat s).isSome) :
    notasLoop docenteId cursoId fecha form alumnos =
      Except.ok (notasParsedEntries docenteId cursoId fecha form alumnos) := by
  induction alumnos with
  | nil => rfl
  | cons a0 rest ih =>
    have hrest := ih (fun a ha s hs hne => h a (List.mem_cons_of_mem a0 ha) s hs hne)
    cases hf : form a0.id with
    | none => simp [notasLoop, notasParsedEntries, hf, hrest, List.filterMap_cons]
    | some s0 =>
      by_cases he : s0.isEmpty
      · simp [notasLoop, notasParsedEntries, hf, he, hrest, List.filterMap_cons]
      · cases hp : pyFloat s0 with
        | none =>
          have := h a0 (List.mem_cons_self a0 rest) s0 hf (by simpa using he)
          rw [hp] at this
          simp at this
        | some q =>
          simp [notasLoop, notasParsedEntries, hf, he, hp, hrest,
            List.filterMap_cons, Except.map]

/-- C1 counterexample: student 1's submitted text "abc" is non-empty and
unparsable; the whole grade submission raises `ValueError` — the entry is not
skipped, student 2's valid entry "7" is not appended, and the caller never
receives the aggregate success message. -/
theorem c1_counterexample :
    notas (some (5, "docente")) 1 Method.post
      (fun aid => if aid == 1 then some "abc" else some "7") 200 stC1 =
      Except.error "ValueError" := by
  decide

/-- C1 (amended): if any student of the course submits a non-empty but
unparsable grade text, the whole call fails with `ValueError` and no entry at
all is recorded (the insertions are never committed); only when every
non-empty submitted text parses are the valid entries appended and the
aggregate success confirmation returned. -/
theorem c1_amended (docenteId cursoId today : Nat) (form : Nat → Option String)
    (st : Store) :
    ((∃ a ∈ alumnosDe cursoId st, ∃ s,
        form a.id = some s ∧ s.isEmpty = false ∧ pyFloat s = none) →
      notas (some (docenteId, "docente")) cursoId Method.post form today st =
        Except.error "ValueError") ∧
    ((∀ a ∈ alumnosDe cursoId st, ∀ s,
        form a.id = some s → s.isEmpty = false → (pyFloat s).isSome) →
      notas (some (docenteId, "docente")) cursoId Method.post form today st =
        Except.ok
          ({ st with notas := st.notas ++
              notasParsedEntries docenteId cursoId today form (alumnosDe cursoId st) },
           HResp.text "Notas registradas correctamente")) := by
  constructor
  · intro h
    simp [notas, notasLoop_error docenteId cursoId today form (alumnosDe cursoId st) h]
  · intro h
    simp [notas, notasLoop_ok docenteId cursoId today form (alumnosDe cursoId st) h]

/-- C1 witness: a call where every submitted text parses succeeds with the
parsed entries appended. -/
theorem c1_witness :
    notas (some (5, "docente")) 1 Method.post (fun _ => some "8") 200 stC1 =
      Except.ok
        ({ stC1 with notas := stC1.notas ++
            notasParsedEntries 5 1 200 (fun _ => some "8") (alumnosDe 1 stC1) },
         HResp.text "Notas registradas correctamente") :=
  (c1_amended 5 1 200 (fun _ => some "8") stC1).2
    (by intro a ha s hs hne; cases hs; decide)

/-- C5 counterexample: in `stC5` the cell (student 1, course 1, date 10) holds
two records written by different teachers, with flags 0 and 1; the export
query (which ignores the teacher) renders `A`, although a record with flag 1
exists — refuting "`P` if and only if a record exists with flag 1". -/
theorem c5_counterexample :
    exportCell 1 1 10 stC5 = "A" ∧
    (∃ r ∈ stC5.asistencia,
      r.alumnoId = 1 ∧ r.cursoId = 1 ∧ r.fecha = 10 ∧ r.presente = 1) := by
  decide

/-- C5 (amended): provided the (student, course, date) cell has at most one
attendance record and all stored flags are 0 or 1, the export cell is `SR`
iff no record exists for the cell, `P` iff a record with flag 1 exists, and
`A` iff a record with flag 0 exists.  (Without the uniqueness assumption the
cell reflects only the first matching record, see the counterexample.) -/
theorem c5_amended (a c f : Nat) (st : Store)
    (huniq : (st.asistencia.filter (fun r =>
        r.alumnoId == a && r.cursoId == c && r.fecha == f)).length ≤ 1)
    (hflags : ∀ r ∈ st.asistencia, r.presente = 0 ∨ r.presente = 1) :
    (exportCell a c f st = "SR" ↔
      ∀ r ∈ st.asistencia, ¬(r.alumnoId = a ∧ r.cursoId = c ∧ r.fecha = f)) ∧
    (exportCell a c f st = "P" ↔
      ∃ r ∈ st.asistencia,
        (r.alumnoId = a ∧ r.cursoId = c ∧ r.fecha = f) ∧ r.presente = 1) ∧
    (exportCell a c f st = "A" ↔
      ∃ r ∈ st.asistencia,
        (r.alumnoId = a ∧ r.cursoId = c ∧ r.fecha = f) ∧ r.presente = 0) := by
  cases hfind : st.asistencia.find? (fun r =>
      r.alumnoId == a && r.cursoId == c && r.fecha == f) with
  | none =>
    have hall := List.find?_eq_none.mp hfind
    have hnone : ∀ r ∈ st.asistencia, ¬(r.alumnoId = a ∧ r.cursoId = c ∧ r.fecha = f) := by
      intro r hr hk
      exact hall r hr (by simp [hk.1, hk.2.1, hk.2.2])
    refine ⟨?_, ?_, ?_⟩
    · simp only [exportCell, hfind]
      exact ⟨fun _ => hnone, fun _ => by trivial⟩
    · simp only [exportCell, hfind]
      constructor
      · intro h
        exact absurd h (by decide)
      · rintro ⟨r, hr, hk, -⟩
        exact absurd hk (hnone r hr)
    · simp only [exportCell, hfind]
      constructor
      · intro h
        exact absurd h (by decide)
      · rintro ⟨r, hr, hk, -⟩
        exact absurd hk (hnone r hr)
  | some r =>
    have hmem : r ∈ st.asistencia := List.mem_of_find?_eq_some hfind
    have hpr := List.find?_some hfind
    have hkey : r.alumnoId = a ∧ r.cursoId = c ∧ r.fecha = f := by
      simpa [and_assoc] using hpr
    have huni : ∀ r' ∈ st.asistencia,
        (r'.alumnoId = a ∧ r'.cursoId = c ∧ r'.fecha = f) → r' = r := by
      intro r' hr' hk'
      have h1 : r ∈ st.asistencia.filter (fun r =>
          r.alumnoId == a && r.cursoId == c && r.fecha == f) :=
        List.mem_filter.mpr ⟨hmem, hpr⟩
      have h2 : r' ∈ st.asistencia.filter (fun r =>
          r.alumnoId == a && r.cursoId == c && r.fecha == f) :=
        List.mem_filter.mpr ⟨hr', by simp [hk'.1, hk'.2.1, hk'.2.2]⟩
      cases hl : st.asistencia.filter (fun r =>
          r.alumnoId == a && r.cursoId == c && r.fecha == f) with
      | nil =>
        rw [hl] at h1
        exact absurd h1 (List.not_mem_nil r)
      | cons x rest2 =>
        cases rest2 with
        | nil =>
          rw [hl] at h1 h2
          have e1 : r = x := by simpa using h1
          have e2 : r' = x := by simpa using h2
          exact e2.trans e1.symm
        | cons y t =>
          rw [hl] at huniq
          simp at huniq
    rcases hflags r hmem with hp0 | hp1
    · have hcell : exportCell a c f st = "A" := by
        simp [exportCell, hfind, hp0]
      refine ⟨?_, ?_, ?_⟩
      · rw [hcell]
        constructor
        · intro h
          exact absurd h (by decide)
        · intro h
          exact absurd hkey (h r hmem)
      · rw [hcell]
        constructor
        · intro h
          exact absurd h (by decide)
        · rintro ⟨r', hr', hk', hp'⟩
          have := huni r' hr' hk'
          rw [this] at hp'
          omega
      · rw [hcell]
        exact ⟨fun _ => ⟨r, hmem, hkey, hp0⟩, fun _ => rfl⟩
    · have hcell : exportCell a c f st = "P" := by
        simp [exportCell, hfind, hp1]
      refine ⟨?_, ?_, ?_⟩
      · rw [hcell]
        constructor
        · intro h
          exact absurd h (by decide)
        · intro h
          exact absurd hkey (h r hmem)
      · rw [hcell]
        exact ⟨fun _ => ⟨r, hmem, hkey, hp1⟩, fun _ => rfl⟩
      · rw [hcell]
        constructor
        · intro h
          exact absurd h (by decide)
        · rintro ⟨r', hr', hk', hp'⟩
          have := huni r' hr' hk'
          rw [this] at hp'
          omega

/-- C5 witness: in `stC2` the single record for (student 1, course 1, date
700000) has flag 1, and the export cell is `P`. -/
theorem c5_witness : exportCell 1 1 700000 stC2 = "P" :=
  (c5_amended 1 1 700000 stC2 (by decide) (by decide)).2.1.mpr (by decide)

/-- Supporting lemma: the ORDER BY comparator is transitive. -/
theorem cmpAlumnos_trans (a b c : Alumno)
    (h1 : decide (a.apellido < b.apellido ∨
      (a.apellido = b.apellido ∧ a.nombre ≤ b.nombre)) = true)
    (h2 : decide (b.apellido < c.apellido ∨
      (b.apellido = c.apellido ∧ b.nombre ≤ c.nombre)) = true) :
    decide (a.apellido < c.apellido ∨
      (a.apellido = c.apellido ∧ a.nombre ≤ c.nombre)) = true := by
  simp only [decide_eq_true_eq] at h1 h2 ⊢
  rcases h1 with h1 | ⟨h1, h1b⟩ <;> rcases h2 with h2 | ⟨h2, h2b⟩
  · exact Or.inl (lt_trans h1 h2)
  · exact Or.inl (h2 ▸ h1)
  · exact Or.inl (h1 ▸ h2)
  · exact Or.inr ⟨h1.trans h2, le_trans h1b h2b⟩

/-- Supporting lemma: the ORDER BY comparator is total. -/
theorem cmpAlumnos_total (a b : Alumno) :
    (decide (a.apellido < b.apellido ∨
        (a.apellido = b.apellido ∧ a.nombre ≤ b.nombre)) ||
     decide (b.apellido < a.apellido ∨
        (b.apellido = a.apellido ∧ b.nombre ≤ a.nombre))) = true := by
  simp only [Bool.or_eq_true, decide_eq_true_eq]
  rcases lt_trichotomy a.apellido b.apellido with h | h | h
  · exact Or.inl (Or.inl h)
  · rcases le_total a.nombre b.nombre with h2 | h2
    · exact Or.inl (Or.inr ⟨h, h2⟩)
    · exact Or.inr (Or.inr ⟨h.symm, h2⟩)
  · exact Or.inr (Or.inl h)

/-- C7 counterexample: course 1 of `stC7` has exactly one student, but that
student holds two grade rows, so the grade export emits two rows for them —
refuting "exactly one row per student". -/
theorem c7_counterexample :
    (alumnosDe 1 stC7).length = 1 ∧ (notasJoinRows 1 stC7).length = 2 := by
  constructor
  · decide
  · simp [notasJoinRows, alumnosDe, sortAlumnos, stC7, filasAlumno]

/-- C7 (amended): the grade export emits, in last-name-then-first-name order
over exactly the students of the course, one row per (student, grade entry)
pair — a student with no grade entry contributing exactly one row with a
blank grade cell — every row carrying the student's "LastName, FirstName"
display name; and a student for whom an empty grade text was submitted gets
no grade entry recorded by the grade-submission call. -/
theorem c7_amended (cid : Nat) (st : Store) (docenteId fecha : Nat)
    (form : Nat → Option String) (alumnos : List Alumno) :
    notasJoinRows cid st = (sortAlumnos (alumnosDe cid st)).flatMap (filasAlumno st) ∧
    (sortAlumnos (alumnosDe cid st)).Perm (alumnosDe cid st) ∧
    (sortAlumnos (alumnosDe cid st)).Pairwise (fun a b =>
      a.apellido < b.apellido ∨ (a.apellido = b.apellido ∧ a.nombre ≤ b.nombre)) ∧
    (∀ a : Alumno, (filasAlumno st a).length =
      max 1 (st.notas.filter (fun n => n.alumnoId == a.id)).length) ∧
    (∀ a : Alumno, st.notas.filter (fun n => n.alumnoId == a.id) = [] →
      filasAlumno st a = [(s!"{a.apellido}, {a.nombre}", none)]) ∧
    (∀ a : Alumno, ∀ p ∈ filasAlumno st a, p.1 = s!"{a.apellido}, {a.nombre}") ∧
    (∀ x es, form x = some "" →
      notasLoop docenteId cid fecha form alumnos = Except.ok es →
      ∀ e ∈ es, e.alumnoId ≠ x) := by
  refine ⟨rfl, List.mergeSort_perm _ _, ?_, ?_, ?_, ?_, ?_⟩
  · exact (List.sorted_mergeSort cmpAlumnos_trans cmpAlumnos_total
      (alumnosDe cid st)).imp (fun h => by simpa using h)
  · intro a
    cases hfl : st.notas.filter (fun n => n.alumnoId == a.id) with
    | nil => simp [filasAlumno, hfl]
    | cons n ns => simp [filasAlumno, hfl]
  · intro a hfl
    simp [filasAlumno, hfl]
  · intro a p hp
    cases hfl : st.notas.filter (fun n => n.alumnoId == a.id) with
    | nil =>
      rw [filasAlumno, hfl] at hp
      simpa using congrArg Prod.fst (List.mem_singleton.mp hp)
    | cons n ns =>
      rw [filasAlumno, hfl] at hp
      obtain ⟨n', hn', rfl⟩ := List.mem_map.mp hp
      rfl
  · intro x es hx hloop
    induction alumnos generalizing es with
    | nil =>
      simp only [notasLoop, Except.ok.injEq] at hloop
      subst hloop
      simp
    | cons a0 rest ih =>
      cases hf : form a0.id with
      | none =>
        rw [notasLoop, hf] at hloop
        exact ih es hloop
      | some s0 =>
        by_cases he : s0.isEmpty
        · simp only [notasLoop, hf, if_pos he] at hloop
          exact ih es hloop
        · cases hp : pyFloat s0 with
          | none =>
            simp only [notasLoop, hf, if_neg he, hp] at hloop
            cases hloop
          | some q =>
            simp only [notasLoop, hf, if_neg he, hp] at hloop
            cases hr : notasLoop docenteId cid fecha form rest with
            | error e0 =>
              rw [hr] at hloop
              simp [Except.map] at hloop
            | ok es' =>
              rw [hr] at hloop
              simp only [Except.map, Except.ok.injEq] at hloop
              subst hloop
              intro e hme
              rcases List.mem_cons.mp hme with rfl | hme'
              · intro hax
                have hax2 : a0.id = x := hax
                rw [hax2, hx] at hf
                cases hf
                exact he rfl
              · exact ih es' hr e hme'

/-- C7 witness: the sole student of `stC1` has no grade rows and contributes
exactly the single blank row. -/
theorem c7_witness :
    filasAlumno stC1 ⟨1, "Jane", "Doe", 1⟩ = [("Doe, Jane", none)] :=
  (c7_amended 1 stC1 0 0 (fun _ => none) []).2.2.2.2.1 ⟨1, "Jane", "Doe", 1⟩ (by decide)

/-- Supporting lemma: the cell filter ignores the `presente` column. -/
theorem matchAsist_setPresente (a d c f rid v : Nat) (r : AsistRow) :
    matchAsist a d c f (setPresente rid v r) = matchAsist a d c f r := by
  unfold matchAsist setPresente
  split <;> rfl

/-- Supporting lemma: the update keeps the cell key. -/
theorem asistKey_setPresente (rid v : Nat) (r : AsistRow) :
    asistKey (setPresente rid v r) = asistKey r := by
  unfold asistKey setPresente
  split <;> rfl

/-- Supporting lemma: the update keeps the row id. -/
theorem id_setPresente (rid v : Nat) (r : AsistRow) :
    (setPresente rid v r).id = r.id := by
  unfold setPresente
  split <;> rfl

/-- Supporting lemma: the cell filter tests exactly the cell key. -/
theorem matchAsist_iff (a d c f : Nat) (r : AsistRow) :
    matchAsist a d c f r = true ↔ asistKey r = (a, d, c, f) := by
  simp [matchAsist, asistKey, and_assoc]

/-- Supporting lemma: after the UPDATE, the first matching row of the updated
cell is the old first match with its flag replaced (ids must be distinct). -/
theorem findAsist_update_self (a d c f : Nat) (l : List AsistRow)
    (hnd : (l.map (fun r => r.id)).Nodup) (r : AsistRow)
    (hr : findAsist a d c f l = some r) (v : Nat) :
    findAsist a d c f (l.map (setPresente r.id v)) = some { r with presente := v } := by
  induction l with
  | nil => simp [findAsist] at hr
  | cons x t ih =>
    have hndc : x.id ∉ t.map (fun r => r.id) ∧ (t.map (fun r => r.id)).Nodup := by
      rw [List.map_cons, List.nodup_cons] at hnd
      exact hnd
    rw [List.map_cons]
    unfold findAsist at hr ⊢
    cases hx : matchAsist a d c f x with
    | true =>
      rw [List.find?_cons_of_pos _ hx] at hr
      injection hr with he
      subst he
      have hm : matchAsist a d c f (setPresente x.id v x) = true := by
        rw [matchAsist_setPresente]
        exact hx
      rw [List.find?_cons_of_pos _ hm]
      have : setPresente x.id v x = { x with presente := v } := by
        simp [setPresente]
      rw [this]
    | false =>
      rw [List.find?_cons_of_neg _ (by simp [hx])] at hr
      have hmem : r ∈ t := List.mem_of_find?_eq_some hr
      have hxid : x.id ≠ r.id := by
        intro he
        exact hndc.1 (he ▸ List.mem_map_of_mem _ hmem)
      have hsx : setPresente r.id v x = x := by
        simp [setPresente, hxid]
      rw [hsx, List.find?_cons_of_neg _ (by simp [hx])]
      exact ih hndc.2 hr

/-- Supporting lemma: updating an id that occurs nowhere is a no-op. -/
theorem map_setPresente_of_notin (rid v : Nat) (t : List AsistRow)
    (h : ∀ y ∈ t, y.id ≠ rid) : t.map (setPresente rid v) = t := by
  induction t with
  | nil => rfl
  | cons y ys ih =>
    rw [List.map_cons, ih (fun z hz => h z (List.mem_cons_of_mem y hz))]
    have : setPresente rid v y = y := by
      simp [setPresente, h y (List.mem_cons_self y ys)]
    rw [this]

/-- Supporting lemma: the UPDATE of one cell leaves the lookup of every other
cell unchanged (ids must be distinct). -/
theorem findAsist_update_other (a d c f a' d' c' f' : Nat) (l : List AsistRow)
    (hnd : (l.map (fun r => r.id)).Nodup) (r : AsistRow)
    (hr : findAsist a d c f l = some r) (v : Nat)
    (hne : ¬(a' = a ∧ d' = d ∧ c' = c ∧ f' = f)) :
    findAsist a' d' c' f' (l.map (setPresente r.id v)) =
      findAsist a' d' c' f' l := by
  induction l with
  | nil => rfl
  | cons x t ih =>
    have hndc : x.id ∉ t.map (fun r => r.id) ∧ (t.map (fun r => r.id)).Nodup := by
      rw [List.map_cons, List.nodup_cons] at hnd
      exact hnd
    rw [List.map_cons]
    unfold findAsist at hr ⊢
    cases hpx : matchAsist a d c f x with
    | true =>
      rw [List.find?_cons_of_pos _ hpx] at hr
      injection hr with he
      subst he
      have htmap : t.map (setPresente x.id v) = t :=
        map_setPresente_of_notin x.id v t
          (fun y hy hid => hndc.1 (hid ▸ List.mem_map_of_mem _ hy))
      cases hqx : matchAsist a' d' c' f' x with
      | true =>
        have k1 := (matchAsist_iff a d c f x).mp hpx
        have k2 := (matchAsist_iff a' d' c' f' x).mp hqx
        rw [k1] at k2
        injection k2 with e1 k2
        injection k2 with e2 k2
        injection k2 with e3 e4
        exact absurd ⟨e1.symm, e2.symm, e3.symm, e4.symm⟩ hne
      | false =>
        rw [List.find?_cons_of_neg _ (by rw [matchAsist_setPresente]; simp [hqx]),
          List.find?_cons_of_neg _ (by simp [hqx])]
        rw [htmap]
    | false =>
      rw [List.find?_cons_of_neg _ (by simp [hpx])] at hr
      have hmem : r ∈ t := List.mem_of_find?_eq_some hr
      have hxid : x.id ≠ r.id := by
        intro he
        exact hndc.1 (he ▸ List.mem_map_of_mem _ hmem)
      have hsx : setPresente r.id v x = x := by
        simp [setPresente, hxid]
      rw [hsx]
      cases hqx : matchAsist a' d' c' f' x with
      | true =>
        rw [List.find?_cons_of_pos _ hqx, List.find?_cons_of_pos _ hqx]
      | false =>
        rw [List.find?_cons_of_neg _ (by simp [hqx]),
          List.find?_cons_of_neg _ (by simp [hqx])]
        exact ih hndc.2 hr

/-- Supporting lemma: after an INSERT into an absent cell, the cell's lookup
returns the new row. -/
theorem findAsist_append_self (a d c f : Nat) (l : List AsistRow)
    (hnone : findAsist a d c f l = none) (row : AsistRow)
    (hm : matchAsist a d c f row = true) :
    findAsist a d c f (l ++ [row]) = some row := by
  unfold findAsist at hnone ⊢
  rw [List.find?_append, hnone]
  simp [hm]

/-- Supporting lemma: an appended row of a different cell does not change a
lookup. -/
theorem findAsist_append_other (a' d' c' f' : Nat) (l : List AsistRow)
    (row : AsistRow) (hm : matchAsist a' d' c' f' row = false) :
    findAsist a' d' c' f' (l ++ [row]) = findAsist a' d' c' f' l := by
  unfold findAsist
  rw [List.find?_append]
  cases h : l.find? (matchAsist a' d' c' f') with
  | none => simp [hm]
  | some r0 => rfl

/-- Supporting lemma: after upserting a cell, reading it gives the submitted
flag, and a row for it exists. -/
theorem loadCell_upsert_self (d c a f : Nat) (m : Bool) (st : Store)
    (hnd : (st.asistencia.map (fun r => r.id)).Nodup) :
    loadCell d c a f (upsertAsist d c a f m st) = (if m then 1 else 0) ∧
    findAsist a d c f (upsertAsist d c a f m st).asistencia ≠ none := by
  unfold upsertAsist
  cases hf : findAsist a d c f st.asistencia with
  | some r =>
    have h2 := findAsist_update_self a d c f st.asistencia hnd r hf (if m then 1 else 0)
    constructor
    · unfold loadCell
      rw [h2]
    · rw [h2]
      exact fun h => by cases h
  | none =>
    have hm : matchAsist a d c f ⟨st.asistSeq, a, d, c, f, if m then 1 else 0⟩ = true := by
      simp [matchAsist]
    have h2 := findAsist_append_self a d c f st.asistencia hf _ hm
    constructor
    · unfold loadCell
      rw [h2]
    · rw [h2]
      exact fun h => by cases h

/-- Supporting lemma: upserting one cell leaves every other cell's lookup
unchanged. -/
theorem findAsist_upsert_other (d c a f a' d' c' f' : Nat) (m : Bool) (st : Store)
    (hnd : (st.asistencia.map (fun r => r.id)).Nodup)
    (hne : ¬(a' = a ∧ d' = d ∧ c' = c ∧ f' = f)) :
    findAsist a' d' c' f' (upsertAsist d c a f m st).asistencia =
      findAsist a' d' c' f' st.asistencia := by
  unfold upsertAsist
  cases hf : findAsist a d c f st.asistencia with
  | some r =>
    exact findAsist_update_other a d c f a' d' c' f' st.asistencia hnd r hf _ hne
  | none =>
    apply findAsist_append_other
    cases hq : matchAsist a' d' c' f' ⟨st.asistSeq, a, d, c, f, if m then 1 else 0⟩ with
    | false => rfl
    | true =>
      have hk := (matchAsist_iff a' d' c' f' _).mp hq
      simp only [asistKey, Prod.mk.injEq] at hk
      exact absurd ⟨hk.1.symm, hk.2.1.symm, hk.2.2.1.symm, hk.2.2.2.symm⟩ hne

/-- Supporting lemma: an upsert never makes an existing cell row disappear. -/
theorem findAsist_upsert_pres (d c a f a' d' c' f' : Nat) (m : Bool) (st : Store)
    (hs : findAsist a' d' c' f' st.asistencia ≠ none) :
    findAsist a' d' c' f' (upsertAsist d c a f m st).asistencia ≠ none := by
  have hsome : ∃ x ∈ st.asistencia, matchAsist a' d' c' f' x = true := by
    have := Option.ne_none_iff_isSome.mp hs
    unfold findAsist at this
    simpa using List.find?_isSome.mp this
  obtain ⟨x, hx, hmx⟩ := hsome
  have : ∃ y ∈ (upsertAsist d c a f m st).asistencia, matchAsist a' d' c' f' y = true := by
    unfold upsertAsist
    cases hf : findAsist a d c f st.asistencia with
    | some r =>
      refine ⟨setPresente r.id (if m then 1 else 0) x, ?_, ?_⟩
      · exact List.mem_map_of_mem _ hx
      · rw [matchAsist_setPresente]
        exact hmx
    | none =>
      exact ⟨x, by simp [hx], hmx⟩
  apply Option.ne_none_iff_isSome.mpr
  unfold findAsist
  apply List.find?_isSome.mpr
  obtain ⟨y, hy, hmy⟩ := this
  exact ⟨y, hy, hmy⟩

/-- Supporting lemma: upserting an existing cell keeps the table length. -/
theorem upsert_length_of_found (d c a f : Nat) (m : Bool) (st : Store)
    (hs : findAsist a d c f st.asistencia ≠ none) :
    (upsertAsist d c a f m st).asistencia.length = st.asistencia.length := by
  unfold upsertAsist
  cases hf : findAsist a d c f st.asistencia with
  | some r => simp
  | none => exact absurd hf hs

/-- Supporting lemma: the upsert preserves the table invariant. -/
theorem upsert_inv (d c a f : Nat) (m : Bool) (st : Store)
    (hinv : AsistInv st) : AsistInv (upsertAsist d c a f m st) := by
  obtain ⟨hlt, hids, hkeys⟩ := hinv
  unfold upsertAsist
  cases hf : findAsist a d c f st.asistencia with
  | some r =>
    refine ⟨?_, ?_, ?_⟩
    · intro r2 hr2
      obtain ⟨y, hy, rfl⟩ := List.mem_map.mp hr2
      rw [id_setPresente]
      exact hlt y hy
    · have : (st.asistencia.map (setPresente r.id (if m then 1 else 0))).map
          (fun r => r.id) = st.asistencia.map (fun r => r.id) := by
        rw [List.map_map]
        exact List.map_congr_left (fun y hy => id_setPresente _ _ y)
      rw [this]
      exact hids
    · have : (st.asistencia.map (setPresente r.id (if m then 1 else 0))).map
          asistKey = st.asistencia.map asistKey := by
        rw [List.map_map]
        exact List.map_congr_left (fun y hy => asistKey_setPresente _ _ y)
      rw [this]
      exact hkeys
  | none =>
    refine ⟨?_, ?_, ?_⟩
    · intro r2 hr2
      rcases List.mem_append.mp hr2 with h | h
      · exact Nat.lt_succ_of_lt (hlt r2 h)
      · rw [List.mem_singleton.mp h]
        exact Nat.lt_succ_self _
    · rw [List.map_append]
      apply List.Nodup.append hids (by simp)
      intro y hy hy2
      simp only [List.map_cons, List.map_nil, List.mem_singleton] at hy2
      obtain ⟨z, hz, hzy⟩ := List.mem_map.mp hy
      have := hlt z hz
      omega
    · rw [List.map_append]
      apply List.Nodup.append hkeys (by simp)
      intro y hy hy2
      simp only [List.map_cons, List.map_nil, List.mem_singleton] at hy2
      obtain ⟨z, hz, hzy⟩ := List.mem_map.mp hy
      have hall := List.find?_eq_none.mp hf z hz
      rw [hy2] at hzy
      have : matchAsist a d c f z = true := by
        apply (matchAsist_iff a d c f z).mpr
        simpa [asistKey] using hzy
      exact absurd this (by simpa using hall)

/-- Supporting lemma: equal lookups give equal cell reads. -/
theorem loadCell_congr (d c a f : Nat) (s1 s2 : Store)
    (h : findAsist a d c f s1.asistencia = findAsist a d c f s2.asistencia) :
    loadCell d c a f s1 = loadCell d c a f s2 := by
  unfold loadCell
  rw [h]

/-- Supporting lemma: behaviour of one student's pass over the week dates
(the inner loop of the attendance POST): the invariant is preserved, every
processed cell reads back the submitted flag and exists, and cells of other
students or other dates are untouched. -/
theorem innerFold_spec (d c aId : Nat) (form : Nat → Nat → Option String)
    (fs : List Nat) (st : Store) (hinv : AsistInv st) (hndf : fs.Nodup) :
    AsistInv (fs.foldl
      (fun st2 f => upsertAsist d c aId f (pyTruthy (form aId f)) st2) st) ∧
    (∀ f ∈ fs,
      loadCell d c aId f (fs.foldl
        (fun st2 f => upsertAsist d c aId f (pyTruthy (form aId f)) st2) st) =
        (if pyTruthy (form aId f) then 1 else 0) ∧
      findAsist aId d c f (fs.foldl
        (fun st2 f => upsertAsist d c aId f (pyTruthy (form aId f)) st2)
          st).asistencia ≠ none) ∧
    (∀ a' d' c' f', a' ≠ aId →
      findAsist a' d' c' f' (fs.foldl
        (fun st2 f => upsertAsist d c aId f (pyTruthy (form aId f)) st2)
          st).asistencia = findAsist a' d' c' f' st.asistencia) ∧
    (∀ f', f' ∉ fs →
      findAsist aId d c f' (fs.foldl
        (fun st2 f => upsertAsist d c aId f (pyTruthy (form aId f)) st2)
          st).asistencia = findAsist aId d c f' st.asistencia) := by
  induction fs generalizing st with
  | nil =>
    exact ⟨hinv, by simp, fun _ _ _ _ _ => rfl, fun _ _ => rfl⟩
  | cons f0 fs ih =>
    obtain ⟨hf0, hndfs⟩ := List.nodup_cons.mp hndf
    rw [List.foldl_cons]
    have hinv1 := upsert_inv d c aId f0 (pyTruthy (form aId f0)) st hinv
    obtain ⟨IH1, IH2, IH3, IH4⟩ :=
      ih (upsertAsist d c aId f0 (pyTruthy (form aId f0)) st) hinv1 hndfs
    have hself :=
      loadCell_upsert_self d c aId f0 (pyTruthy (form aId f0)) st hinv.2.1
    refine ⟨IH1, ?_, ?_, ?_⟩
    · intro f hf
      rcases List.mem_cons.mp hf with rfl | hmem
      · have heq := IH4 f hf0
        constructor
        · rw [loadCell_congr d c aId f _ _ heq]
          exact hself.1
        · rw [heq]
          exact hself.2
      · exact IH2 f hmem
    · intro a' d' c' f' hne
      rw [IH3 a' d' c' f' hne]
      exact findAsist_upsert_other d c aId f0 a' d' c' f' _ st hinv.2.1
        (fun hc => hne hc.1)
    · intro f' hf'
      have hne0 : f' ≠ f0 := fun he => hf' (he ▸ List.mem_cons_self f0 fs)
      have hnem : f' ∉ fs := fun hm => hf' (List.mem_cons_of_mem f0 hm)
      rw [IH4 f' hnem]
      exact findAsist_upsert_other d c aId f0 aId d c f' _ st hinv.2.1
        (fun hc => hne0 hc.2.2.2)

/-- Supporting lemma: behaviour of the whole attendance POST loop: the
invariant is preserved, every cell of the (students × week) grid reads back
its submitted flag and has a row, and cells of students outside the list are
untouched. -/
theorem recordWeek_spec (d c : Nat) (fechas : List Nat)
    (form : Nat → Nat → Option String) (alumnos : List Alumno) (st : Store)
    (hinv : AsistInv st) (hndA : (alumnos.map (fun a => a.id)).Nodup)
    (hndF : fechas.Nodup) :
    AsistInv (recordWeek d c fechas form alumnos st) ∧
    (∀ a ∈ alumnos, ∀ f ∈ fechas,
      loadCell d c a.id f (recordWeek d c fechas form alumnos st) =
        (if pyTruthy (form a.id f) then 1 else 0) ∧
      findAsist a.id d c f (recordWeek d c fechas form alumnos st).asistencia ≠ none) ∧
    (∀ a' d' c' f', a' ∉ alumnos.map (fun a => a.id) →
      findAsist a' d' c' f' (recordWeek d c fechas form alumnos st).asistencia =
        findAsist a' d' c' f' st.asistencia) := by
  induction alumnos generalizing st with
  | nil =>
    exact ⟨hinv, by simp, fun _ _ _ _ _ => rfl⟩
  | cons a0 rest ih =>
    have hndA2 : a0.id ∉ rest.map (fun a => a.id) ∧
        (rest.map (fun a => a.id)).Nodup := by
      rw [List.map_cons, List.nodup_cons] at hndA
      exact hndA
    unfold recordWeek at *
    rw [List.foldl_cons]
    obtain ⟨inner1, inner2, inner3, inner4⟩ :=
      innerFold_spec d c a0.id form fechas st hinv hndF
    obtain ⟨IH1, IH2, IH3⟩ := ih _ inner1 hndA2.2
    refine ⟨IH1, ?_, ?_⟩
    · intro a ha f hf
      rcases List.mem_cons.mp ha with rfl | hmem
      · have heq := IH3 a.id d c f hndA2.1
        constructor
        · rw [loadCell_congr d c a.id f _ _ heq]
          exact (inner2 f hf).1
        · rw [heq]
          exact (inner2 f hf).2
      · exact IH2 a hmem f hf
    · intro a' d' c' f' hnm
      have hna : a' ≠ a0.id := fun he => hnm (by
        rw [List.map_cons]
        exact he ▸ List.mem_cons_self _ _)
      have hnr : a' ∉ rest.map (fun a => a.id) := fun hm => hnm (by
        rw [List.map_cons]
        exact List.mem_cons_of_mem _ hm)
      rw [IH3 a' d' c' f' hnr]
      exact inner3 a' d' c' f' hna

/-- Supporting lemma: one student's pass never deletes an existing cell row. -/
theorem innerFold_pres (d c aId : Nat) (form : Nat → Nat → Option String)
    (fs : List Nat) (st : Store) (a' d' c' f' : Nat)
    (hs : findAsist a' d' c' f' st.asistencia ≠ none) :
    findAsist a' d' c' f' ((fs.foldl
      (fun st2 f => upsertAsist d c aId f (pyTruthy (form aId f)) st2)
        st)).asistencia ≠ none := by
  induction fs generalizing st with
  | nil => exact hs
  | cons f0 fs ih =>
    rw [List.foldl_cons]
    exact ih _ (findAsist_upsert_pres d c aId f0 a' d' c' f' _ st hs)

/-- Supporting lemma: a pass over cells that all exist keeps the table
length (every iteration takes the UPDATE branch). -/
theorem innerFold_length (d c aId : Nat) (form : Nat → Nat → Option String)
    (fs : List Nat) (st : Store)
    (hall : ∀ f ∈ fs, findAsist aId d c f st.asistencia ≠ none) :
    ((fs.foldl
      (fun st2 f => upsertAsist d c aId f (pyTruthy (form aId f)) st2)
        st)).asistencia.length = st.asistencia.length := by
  induction fs generalizing st with
  | nil => rfl
  | cons f0 fs ih =>
    rw [List.foldl_cons]
    rw [ih _ (fun f hf =>
      findAsist_upsert_pres d c aId f0 aId d c f _ st (hall f (List.mem_cons_of_mem f0 hf)))]
    exact upsert_length_of_found d c aId f0 _ st (hall f0 (List.mem_cons_self f0 fs))

/-- Supporting lemma: the whole POST loop never deletes an existing cell row. -/
theorem recordWeek_pres (d c : Nat) (fechas : List Nat)
    (form : Nat → Nat → Option String) (alumnos : List Alumno) (st : Store)
    (a' d' c' f' : Nat) (hs : findAsist a' d' c' f' st.asistencia ≠ none) :
    findAsist a' d' c' f'
      (recordWeek d c fechas form alumnos st).asistencia ≠ none := by
  induction alumnos generalizing st with
  | nil => exact hs
  | cons a0 rest ih =>
    unfold recordWeek at *
    rw [List.foldl_cons]
    exact ih _ (innerFold_pres d c a0.id form fechas st a' d' c' f' hs)

/-- Supporting lemma: re-running the POST loop over a grid whose cells all
exist creates no rows. -/
theorem recordWeek_length (d c : Nat) (fechas : List Nat)
    (form : Nat → Nat → Option String) (alumnos : List Alumno) (st : Store)
    (hall : ∀ a ∈ alumnos, ∀ f ∈ fechas, findAsist a.id d c f st.asistencia ≠ none) :
    (recordWeek d c fechas form alumnos st).asistencia.length =
      st.asistencia.length := by
  induction alumnos generalizing st with
  | nil => rfl
  | cons a0 rest ih =>
    unfold recordWeek at *
    rw [List.foldl_cons]
    rw [ih _ (fun a ha f hf =>
      innerFold_pres d c a0.id form fechas st a.id d c f
        (hall a (List.mem_cons_of_mem a0 ha) f hf))]
    exact innerFold_length d c a0.id form fechas st
      (fun f hf => hall a0 (List.mem_cons_self a0 rest) f hf)

/-- Supporting lemma: the upsert touches only the attendance table. -/
theorem upsert_alumnos (d c a f : Nat) (m : Bool) (st : Store) :
    (upsertAsist d c a f m st).alumnos = st.alumnos := by
  unfold upsertAsist
  cases findAsist a d c f st.asistencia <;> rfl

/-- Supporting lemma: one student's pass leaves the student table unchanged. -/
theorem innerFold_alumnos (d c aId : Nat) (form : Nat → Nat → Option String)
    (fs : List Nat) (st : Store) :
    ((fs.foldl
      (fun st2 f => upsertAsist d c aId f (pyTruthy (form aId f)) st2)
        st)).alumnos = st.alumnos := by
  induction fs generalizing st with
  | nil => rfl
  | cons f0 fs ih =>
    rw [List.foldl_cons, ih, upsert_alumnos]

/-- Supporting lemma: the POST loop leaves the student table unchanged. -/
theorem recordWeek_alumnos (d c : Nat) (fechas : List Nat)
    (form : Nat → Nat → Option String) (alumnos : List Alumno) (st : Store) :
    (recordWeek d c fechas form alumnos st).alumnos = st.alumnos := by
  induction alumnos generalizing st with
  | nil => rfl
  | cons a0 rest ih =>
    unfold recordWeek at *
    rw [List.foldl_cons, ih, innerFold_alumnos]

/-- Supporting lemma: the five week dates are pairwise distinct. -/
theorem fechasSemana_nodup (inicio : Nat) : (fechasSemana inicio).Nodup := by
  rw [fechasSemana_eq]
  simp

/-- Supporting lemma: the POST loop does not change which students belong to
the course. -/
theorem alumnosDe_recordWeek (cid d c : Nat) (fechas : List Nat)
    (form : Nat → Nat → Option String) (alumnos : List Alumno) (st : Store) :
    alumnosDe cid (recordWeek d c fechas form alumnos st) = alumnosDe cid st := by
  unfold alumnosDe
  rw [recordWeek_alumnos]

/-- C4: submitting a week of attendance through the handler records every
(student × weekday) cell — a missing mark as flag 0 — such that loading the
week reads back exactly the submitted marks; resubmitting the same input
leaves the loaded week unchanged and creates no rows, and after either call
each (student, teacher, course, date) cell holds at most one row. -/
theorem c4_week_idempotent (docenteId cid inicio today : Nat)
    (form : Nat → Nat → Option String) (st st1 st2 : Store) (r1 r2 : HResp)
    (hinv : AsistInv st)
    (hnd : ((alumnosDe cid st).map (fun a => a.id)).Nodup)
    (h1 : asistencia (some (docenteId, "docente")) cid (some inicio) today
      Method.post form st = Except.ok (st1, r1))
    (h2 : asistencia (some (docenteId, "docente")) cid (some inicio) today
      Method.post form st1 = Except.ok (st2, r2)) :
    (∀ a ∈ alumnosDe cid st, ∀ f ∈ fechasSemana inicio,
      loadCell docenteId cid a.id f st1 =
        (if pyTruthy (form a.id f) then 1 else 0)) ∧
    loadWeek docenteId cid (fechasSemana inicio) (alumnosDe cid st) st2 =
      loadWeek docenteId cid (fechasSemana inicio) (alumnosDe cid st) st1 ∧
    st2.asistencia.length = st1.asistencia.length ∧
    (st1.asistencia.map asistKey).Nodup ∧
    (st2.asistencia.map asistKey).Nodup := by
  have e0 : ∀ s : Store, asistencia (some (docenteId, "docente")) cid
      (some inicio) today Method.post form s =
      Except.ok (recordWeek docenteId cid (fechasSemana inicio) form
          (alumnosDe cid s) s,
        HResp.redirect s!"/asistencia/{cid}?inicio={inicio}") := fun s => rfl
  rw [e0 st] at h1
  injection h1 with h1p
  obtain ⟨e1, -⟩ := Prod.mk.injEq .. |>.mp h1p
  rw [e0 st1] at h2
  injection h2 with h2p
  obtain ⟨e2, -⟩ := Prod.mk.injEq .. |>.mp h2p
  subst e2
  subst e1
  rw [alumnosDe_recordWeek cid docenteId cid (fechasSemana inicio) form
    (alumnosDe cid st) st]
  obtain ⟨S11, S12, -⟩ := recordWeek_spec docenteId cid (fechasSemana inicio)
    form (alumnosDe cid st) st hinv hnd (fechasSemana_nodup inicio)
  obtain ⟨S21, S22, -⟩ := recordWeek_spec docenteId cid (fechasSemana inicio)
    form (alumnosDe cid st)
    (recordWeek docenteId cid (fechasSemana inicio) form (alumnosDe cid st) st)
    S11 hnd (fechasSemana_nodup inicio)
  refine ⟨fun a ha f hf => (S12 a ha f hf).1, ?_, ?_, S11.2.2, S21.2.2⟩
  · unfold loadWeek
    apply List.map_congr_left
    intro a ha
    have hcell := fun f (hf : f ∈ fechasSemana inicio) =>
      (S22 a ha f hf).1.trans (S12 a ha f hf).1.symm
    congr 1
    apply List.map_congr_left
    intro f hf
    exact congrArg (fun v => (f, v)) (hcell f hf)
  · apply recordWeek_length
    exact fun a ha f hf => (S12 a ha f hf).2

/-- C4 witness: one student, week of Monday ordinal 1, all marks present;
resubmitting the same week creates no additional attendance rows. -/
theorem c4_witness :
    (recordWeek 5 1 (fechasSemana 1) (fun _ _ => some "on")
        (alumnosDe 1 (recordWeek 5 1 (fechasSemana 1) (fun _ _ => some "on")
          (alumnosDe 1 stC4) stC4))
        (recordWeek 5 1 (fechasSemana 1) (fun _ _ => some "on")
          (alumnosDe 1 stC4) stC4)).asistencia.length =
      (recordWeek 5 1 (fechasSemana 1) (fun _ _ => some "on")
        (alumnosDe 1 stC4) stC4).asistencia.length :=
  (c4_week_idempotent 5 1 1 1 (fun _ _ => some "on") stC4
    (recordWeek 5 1 (fechasSemana 1) (fun _ _ => some "on")
      (alumnosDe 1 stC4) stC4)
    (recordWeek 5 1 (fechasSemana 1) (fun _ _ => some "on")
      (alumnosDe 1 (recordWeek 5 1 (fechasSemana 1) (fun _ _ => some "on")
        (alumnosDe 1 stC4) stC4))
      (recordWeek 5 1 (fechasSemana 1) (fun _ _ => some "on")
        (alumnosDe 1 stC4) stC4))
    (HResp.redirect "/asistencia/1?inicio=1")
    (HResp.redirect "/asistencia/1?inicio=1")
    (by unfold AsistInv; decide) (by decide) rfl rfl).2.2.1
